import Mathlib

/-!
Verification of the chain-of-responsibility log-message dispatcher
(`src/main.cpp`).

The program routes a `LogMessage` (a classification plus a text payload)
through a linked chain of handlers.  Each handler reacts to exactly one
classification: `FatalErrorHandler` throws `std::runtime_error(text)`,
`ErrorHandler` overwrites a log file with `text + "\n"` (silently skipping
the write when the file cannot be opened), `WarningHandler` prints
`text + "\n"` to `std::cerr`, and `UnknownMessageHandler` throws
`std::runtime_error("Unprocessed message: " + text)`.  A non-matching
handler forwards to its successor when one is set and otherwise drops the
message silently.

The embedding models the external world explicitly (log-file content,
whether the file can be opened for writing, and the accumulated cerr
output).  A chain reachable from a head node is a list of handler kinds;
`handle` is the dispatch loop, returning the final world together with the
thrown exception, if any.
-/

/-- The closed classification enumeration (`enum class LogMessageType`). -/
inductive LogMessageType where
  | Warning
  | Error
  | FatalError
  | UnknownMessage
deriving DecidableEq, Repr

/-- Immutable message value (`class LogMessage`): a classification and a
text payload, both fixed at construction. -/
structure LogMessage where
  type : LogMessageType
  message : String
deriving DecidableEq, Repr

/-- The only exception the program ever throws is `std::runtime_error`,
carrying a `what` string. -/
inductive CppException where
  | runtime_error (what : String)
deriving DecidableEq, Repr

/-- External state touched by the handlers: the single error-log file's
content, whether that file can be opened for writing, and everything
written to `std::cerr` so far. -/
structure World where
  fileContent : String
  fileOpenable : Bool
  cerr : String
deriving DecidableEq, Repr

/-- The four concrete handler variants of the source. -/
inductive HandlerKind where
  | fatal
  | error
  | warning
  | unknown
deriving DecidableEq, Repr

/-- The dispatch test of each variant's `handle` override: compare the
incoming message's type against the variant's fixed classification
(`log.type() == LogMessageType::...`). -/
def HandlerKind.matches : HandlerKind → LogMessageType → Bool
  | .fatal,   t => t == .FatalError
  | .error,   t => t == .Error
  | .warning, t => t == .Warning
  | .unknown, t => t == .UnknownMessage

/-- The matched branch of each variant's `handle` override.
`fatal` throws `std::runtime_error(log.message())`; `error` opens the log
file and, only when the open succeeds, replaces its whole content with
`log.message()` plus the newline emitted by `std::endl`; `warning` appends
`log.message()` plus a newline to `std::cerr`; `unknown` throws
`std::runtime_error("Unprocessed message: " + log.message())`. -/
def HandlerKind.act : HandlerKind → LogMessage → World → World × Option CppException
  | .fatal, log, w => (w, some (.runtime_error log.message))
  | .error, log, w =>
      if w.fileOpenable then ({ w with fileContent := log.message ++ "\n" }, none)
      else (w, none)
  | .warning, log, w => ({ w with cerr := w.cerr ++ log.message ++ "\n" }, none)
  | .unknown, log, w => (w, some (.runtime_error ("Unprocessed message: " ++ log.message)))

/-- Dispatch along a chain of handlers, head first.  A matching handler
acts and propagation stops; a non-matching handler forwards to its
successor; past the last handler (`next_handler_ == nullptr`) the message
is dropped with no effect and no exception. -/
def handle : List HandlerKind → LogMessage → World → World × Option CppException
  | [], _, w => (w, none)
  | k :: rest, log, w => if k.matches log.type then k.act log w else handle rest log w

/-- The fixed wiring built by `main`:
Fatal → Error → Warning → Unknown. -/
def mainChain : List HandlerKind := [.fatal, .error, .warning, .unknown]

/-- `ErrorHandler`'s constructor: open an `std::ofstream` on the file path
(which truncates the file when the open succeeds) and close it again. -/
def errorHandlerCtor (w : World) : World :=
  if w.fileOpenable then { w with fileContent := "" } else w

/-- The unique handler variant whose dispatch test accepts a given
classification. -/
def kindOf : LogMessageType → HandlerKind
  | .Warning => .warning
  | .Error => .error
  | .FatalError => .fatal
  | .UnknownMessage => .unknown

/-- Instrumented dispatch: which handler of the chain consumes a message
of the given classification (`none` when the message falls off the end of
the chain, i.e. the silent-drop branch fires). -/
def handleConsumer : List HandlerKind → LogMessageType → Option HandlerKind
  | [], _ => none
  | k :: rest, t => if k.matches t then some k else handleConsumer rest t

/-- A concrete world used to instantiate hypotheses: empty file that can be
opened, empty cerr. -/
def sampleWorld : World := { fileContent := "", fileOpenable := true, cerr := "" }

/-- A concrete world whose log file cannot be opened for writing. -/
def lockedWorld : World := { fileContent := "old", fileOpenable := false, cerr := "" }

/-- A variant's dispatch test accepts exactly the classifications mapped to
it by `kindOf`. -/
theorem matches_iff_kindOf (k : HandlerKind) (t : LogMessageType) :
    k.matches t = true ↔ k = kindOf t := by
  cases k <;> cases t <;> decide

/-- If the variant matching the message's classification occurs somewhere
in the chain, dispatch ends in that variant's action. -/
theorem handle_of_mem (chain : List HandlerKind) (log : LogMessage) (w : World)
    (h : kindOf log.type ∈ chain) :
    handle chain log w = (kindOf log.type).act log w := by
  induction chain with
  | nil => cases h
  | cons k rest ih =>
      by_cases hm : k.matches log.type = true
      · have hk : k = kindOf log.type := (matches_iff_kindOf k log.type).mp hm
        subst hk
        simp [handle, hm]
      · have hk : k ≠ kindOf log.type := fun he =>
          hm ((matches_iff_kindOf k log.type).mpr he)
        have hmem : kindOf log.type ∈ rest := by
          rcases List.mem_cons.mp h with h1 | h1
          · exact absurd h1.symm hk
          · exact h1
        simp [handle, hm]
        exact ih hmem

/-- Claim C1: a FatalError-classified message, handled at the head of the
fully wired chain or directly by the FatalHandler, raises
`runtime_error` carrying exactly the original message text and leaves the
world untouched. -/
theorem fatal_raises_original_text (t : String) (w : World) :
    handle mainChain ⟨.FatalError, t⟩ w = (w, some (.runtime_error t)) ∧
    handle [.fatal] ⟨.FatalError, t⟩ w = (w, some (.runtime_error t)) := by
  constructor <;> rfl

/-- Claim C2: an Unknown-classified message, handled at the head of the
fully wired chain or directly by the UnknownHandler, raises
`runtime_error` whose payload is the string "Unprocessed message: "
followed by the original message text, and leaves the world untouched. -/
theorem unknown_raises_wrapped_text (t : String) (w : World) :
    handle mainChain ⟨.UnknownMessage, t⟩ w
      = (w, some (.runtime_error ("Unprocessed message: " ++ t))) ∧
    handle [.unknown] ⟨.UnknownMessage, t⟩ w
      = (w, some (.runtime_error ("Unprocessed message: " ++ t))) := by
  constructor <;> rfl

/-- Claim C3: Warning- and Error-classified messages are handled without
raising a signal and with exactly one side effect each: a Warning's text
plus a newline is appended to the cerr stream (file untouched), and an
Error's text plus a newline replaces the whole file content (cerr
untouched, assuming the file opens). -/
theorem warning_error_return_normally (t : String) (w : World) :
    handle mainChain ⟨.Warning, t⟩ w
      = ({ w with cerr := w.cerr ++ t ++ "\n" }, none) ∧
    (w.fileOpenable = true →
      handle mainChain ⟨.Error, t⟩ w
        = ({ w with fileContent := t ++ "\n" }, none)) := by
  refine ⟨rfl, fun h => ?_⟩
  simp [handle, mainChain, HandlerKind.matches, HandlerKind.act, h]

/-- Witness for C3 at concrete inputs. -/
theorem warning_error_return_normally_witness :
    handle mainChain ⟨.Warning, "real warning"⟩ sampleWorld
      = ({ sampleWorld with cerr := sampleWorld.cerr ++ "real warning" ++ "\n" }, none) ∧
    (sampleWorld.fileOpenable = true ∧
      handle mainChain ⟨.Error, "some_error"⟩ sampleWorld
        = ({ sampleWorld with fileContent := "some_error" ++ "\n" }, none)) :=
  ⟨(warning_error_return_normally "real warning" sampleWorld).1,
   rfl,
   (warning_error_return_normally "some_error" sampleWorld).2 rfl⟩

/-- Claim C4: handling two Error-classified messages in sequence on the
same chain leaves the file containing exactly the second text plus a
newline: the write overwrites, it does not append. -/
theorem error_overwrites_not_appends (t1 t2 : String) (w : World)
    (h : w.fileOpenable = true) :
    (handle mainChain ⟨.Error, t2⟩
        (handle mainChain ⟨.Error, t1⟩ w).1).1.fileContent = t2 ++ "\n" := by
  simp [handle, mainChain, HandlerKind.matches, HandlerKind.act, h]

/-- Witness for C4 at concrete inputs. -/
theorem error_overwrites_not_appends_witness :
    sampleWorld.fileOpenable = true ∧
    (handle mainChain ⟨.Error, "second"⟩
        (handle mainChain ⟨.Error, "first"⟩ sampleWorld).1).1.fileContent
      = "second" ++ "\n" :=
  ⟨rfl, error_overwrites_not_appends "first" "second" sampleWorld rfl⟩

/-- Claim C5: when the log file cannot be opened for writing, handling an
Error-classified message silently skips the write and returns normally:
the world is unchanged and no exception propagates to the caller. -/
theorem error_unopenable_silent (t : String) (w : World)
    (h : w.fileOpenable = false) :
    handle mainChain ⟨.Error, t⟩ w = (w, none) := by
  simp [handle, mainChain, HandlerKind.matches, HandlerKind.act, h]

/-- Witness for C5 at concrete inputs. -/
theorem error_unopenable_silent_witness :
    lockedWorld.fileOpenable = false ∧
    handle mainChain ⟨.Error, "some_error"⟩ lockedWorld = (lockedWorld, none) :=
  ⟨rfl, error_unopenable_silent "some_error" lockedWorld rfl⟩

/-- Claim C6: when no handler of a chain matches the message's
classification, dispatch falls off the end of the chain and completes with
no side effect and no signal: the message is silently dropped. -/
theorem unmatched_message_dropped (chain : List HandlerKind) (log : LogMessage)
    (w : World) (h : ∀ k ∈ chain, k.matches log.type = false) :
    handle chain log w = (w, none) := by
  induction chain with
  | nil => rfl
  | cons k rest ih =>
      have hk : k.matches log.type = false := h k (List.mem_cons_self k rest)
      have hrest : ∀ k2 ∈ rest, k2.matches log.type = false := fun k2 hm =>
        h k2 (List.mem_cons_of_mem k hm)
      simp [handle, hk]
      exact ih hrest

/-- Witness for C6: a partial chain ending at the FatalHandler drops a
Warning message. -/
theorem unmatched_message_dropped_witness :
    (∀ k ∈ [HandlerKind.fatal], k.matches LogMessageType.Warning = false) ∧
    handle [HandlerKind.fatal] ⟨.Warning, "real warning"⟩ sampleWorld
      = (sampleWorld, none) :=
  ⟨by decide,
   unmatched_message_dropped [HandlerKind.fatal] ⟨.Warning, "real warning"⟩
     sampleWorld (by decide)⟩

/-- Claim C7: for any permutation of the four handler variants as wiring
order, dispatch of any message produces the same outcome as the fixed
Fatal → Error → Warning → Unknown order, because each classification
matches exactly one variant. -/
theorem handle_order_independent (chain : List HandlerKind)
    (hp : chain.Perm mainChain) (log : LogMessage) (w : World) :
    handle chain log w = handle mainChain log w := by
  have hmain : kindOf log.type ∈ mainChain := by
    cases log.type <;> decide
  have hchain : kindOf log.type ∈ chain := (hp.mem_iff).mpr hmain
  rw [handle_of_mem chain log w hchain, handle_of_mem mainChain log w hmain]

/-- Witness for C7: the fully reversed wiring handles a Warning message
exactly as the fixed order does. -/
theorem handle_order_independent_witness :
    ([HandlerKind.unknown, .warning, .error, .fatal].Perm mainChain) ∧
    handle [HandlerKind.unknown, .warning, .error, .fatal]
        ⟨.Warning, "real warning"⟩ sampleWorld
      = handle mainChain ⟨.Warning, "real warning"⟩ sampleWorld :=
  ⟨by decide,
   handle_order_independent [HandlerKind.unknown, .warning, .error, .fatal]
     (by decide) ⟨.Warning, "real warning"⟩ sampleWorld⟩

/-- Claim C8: constructing an ErrorHandler immediately truncates the log
file to empty, before any message is handled (the other components of the
world are untouched). -/
theorem ctor_truncates_file (w : World) (h : w.fileOpenable = true) :
    errorHandlerCtor w = { w with fileContent := "" } := by
  simp [errorHandlerCtor, h]

/-- Witness for C8 at a concrete world with nonempty file content. -/
theorem ctor_truncates_file_witness :
    ({ fileContent := "stale", fileOpenable := true, cerr := "" } : World).fileOpenable
        = true ∧
    errorHandlerCtor { fileContent := "stale", fileOpenable := true, cerr := "" }
      = { fileContent := "", fileOpenable := true, cerr := "" } :=
  ⟨rfl, ctor_truncates_file { fileContent := "stale", fileOpenable := true, cerr := "" } rfl⟩

/-- Claim C9: the FatalError case and the Unknown case raise the same
exception type (`std::runtime_error`), differing only in payload: a fatal
message whose text already carries the "Unprocessed message: " wrapping
raises an exception value identical to the one the Unknown case raises, so
a caller catching by type cannot tell the two cases apart. -/
theorem signals_share_exception_type (t : String) (w w' : World) :
    (handle mainChain ⟨.FatalError, t⟩ w).2
      = some (CppException.runtime_error t) ∧
    (handle mainChain ⟨.UnknownMessage, t⟩ w).2
      = some (CppException.runtime_error ("Unprocessed message: " ++ t)) ∧
    (handle mainChain ⟨.FatalError, "Unprocessed message: " ++ t⟩ w).2
      = (handle mainChain ⟨.UnknownMessage, t⟩ w').2 := by
  exact ⟨rfl, rfl, rfl⟩

/-- Claim C10: in the fully wired chain every message carrying one of the
four enumerated classifications is consumed by exactly its matching
handler, and the silent-drop branch never fires. -/
theorem mainChain_never_drops (log : LogMessage) (w : World) :
    handleConsumer mainChain log.type = some (kindOf log.type) ∧
    handle mainChain log w = (kindOf log.type).act log w := by
  refine ⟨?_, ?_⟩
  · cases h : log.type <;> rfl
  · exact handle_of_mem mainChain log w (by cases log.type <;> decide)
